import Mathlib

/-!
Shallow embedding of the employee/vaccine services of this repository
(`src/employees/services/employee.service.ts` and the vaccine service),
together with proofs about the behaviour of the embedded operations.

Modelling conventions:
* TypeScript falsy checks (`if (x)`) are embedded as explicit truthiness
  tests: `""` for strings, `0` for numbers, `none` for absent optionals.
* The TypeORM `SelectQueryBuilder` is embedded two ways, matching the two
  aspects under study: as a list of appended predicates (for the filter
  builder) and as an executable query over an explicit relational store
  (for the read/mutation flows).
* Time-valued `createdDate` fields are omitted: no property here observes
  them.
* `bcrypt.hash` and the dni format validator are external inputs; they are
  passed as function parameters (`bhash`, `validID`) so every statement
  quantifies over them.
* A thrown `HttpException` / `EmployeeException` is embedded as an
  `Except.error`; a TypeScript `TypeError` caused by reading a field of
  `undefined` is embedded as the distinguished error `jsTypeError`.
-/

/-- Modelled from the spec: the `Status` enum of `constants/app.constant`
(not under the provided sources), an Active/Inactive soft-delete flag. -/
inductive Status where
  | Active : Status
  | Inactive : Status
deriving DecidableEq, Repr

/-- Modelled from the spec: the `Type.DELETE` constant of
`constants/app.constant`; only its distinctness from `Type.UPDATE`
matters. -/
def TypeDELETE : String := "DELETE"

/-- Modelled from the spec: the `Type.UPDATE` constant of
`constants/app.constant`. -/
def TypeUPDATE : String := "UPDATE"

/-- Modelled from the spec: the `User.ADMINISTRATOR` constant of
`constants/app.constant`. -/
def UserADMINISTRATOR : String := "ADMINISTRATOR"

/-- Truthiness of an optional string, as JavaScript sees it:
`undefined` and the empty string are falsy. -/
def truthyStr : Option String → Bool
  | none => false
  | some s => s ≠ ""

/-- Truthiness of an optional number: `undefined` and `0` are falsy. -/
def truthyNat : Option Nat → Bool
  | none => false
  | some n => n ≠ 0

/-- The `FilterEmployeeDto` handed to `filterEmployees`; every field is an
optional query parameter, embedded with `""` / `false` standing for the
falsy absent value. -/
structure FilterEmployeeDto where
  dni : String
  email : String
  completeName : String
  vaccine : String
  isVaccinated : Bool
  startDate : String
  finishDate : String
deriving DecidableEq, Repr

/-- One predicate appended to the query builder by an `andWhere` call in
`filterEmployees`; each constructor records the SQL condition used and the
bound parameter value. -/
inductive QueryPred where
  | dniLike : String → QueryPred
  | emailLike : String → QueryPred
  | completeNameLike : String → QueryPred
  | vaccineLike : String → QueryPred
  | vaccinatedEq : Bool → QueryPred
  | dateBetween : String → String → QueryPred
deriving DecidableEq, Repr

/-- First `if` block of `filterEmployees`: `if (dni) andWhere(...)`. -/
def andWhereDni (filters : FilterEmployeeDto) (employees : List QueryPred) :
    List QueryPred :=
  if filters.dni ≠ "" then employees ++ [QueryPred.dniLike filters.dni]
  else employees

/-- Second `if` block of `filterEmployees`: `if (email) andWhere(...)`. -/
def andWhereEmail (filters : FilterEmployeeDto) (employees : List QueryPred) :
    List QueryPred :=
  if filters.email ≠ "" then employees ++ [QueryPred.emailLike filters.email]
  else employees

/-- Third `if` block of `filterEmployees`: `if (completeName) andWhere(...)`. -/
def andWhereCompleteName (filters : FilterEmployeeDto) (employees : List QueryPred) :
    List QueryPred :=
  if filters.completeName ≠ "" then
    employees ++ [QueryPred.completeNameLike filters.completeName]
  else employees

/-- Fourth `if` block of `filterEmployees`: `if (vaccine) andWhere(...)`. -/
def andWhereVaccine (filters : FilterEmployeeDto) (employees : List QueryPred) :
    List QueryPred :=
  if filters.vaccine ≠ "" then employees ++ [QueryPred.vaccineLike filters.vaccine]
  else employees

/-- Fifth `if` block of `filterEmployees`: `if (isVaccinated) andWhere(...)`. -/
def andWhereIsVaccinated (filters : FilterEmployeeDto) (employees : List QueryPred) :
    List QueryPred :=
  if filters.isVaccinated then employees ++ [QueryPred.vaccinatedEq filters.isVaccinated]
  else employees

/-- Sixth `if` block of `filterEmployees`:
`if (startDate && finishDate) andWhere(... BETWEEN ...)`. -/
def andWhereDates (filters : FilterEmployeeDto) (employees : List QueryPred) :
    List QueryPred :=
  if filters.startDate ≠ "" ∧ filters.finishDate ≠ "" then
    employees ++ [QueryPred.dateBetween filters.startDate filters.finishDate]
  else employees

/-- Embedding of `EmployeeService.filterEmployees`: the query is the list
of predicates already attached; each truthy filter field appends exactly
its `andWhere` predicate, in source order, and the date range is appended
only when `startDate && finishDate`. -/
def filterEmployees (employees : List QueryPred) (filters : FilterEmployeeDto) :
    List QueryPred :=
  andWhereDates filters
    (andWhereIsVaccinated filters
      (andWhereVaccine filters
        (andWhereCompleteName filters
          (andWhereEmail filters
            (andWhereDni filters employees)))))

/-- Number of predicates the claim expects `filterEmployees` to append:
one per truthy field among the five scalar filters, plus one when both
dates are truthy. -/
def truthyFilterCount (f : FilterEmployeeDto) : Nat :=
  (if f.dni ≠ "" then 1 else 0) +
  (if f.email ≠ "" then 1 else 0) +
  (if f.completeName ≠ "" then 1 else 0) +
  (if f.vaccine ≠ "" then 1 else 0) +
  (if f.isVaccinated then 1 else 0) +
  (if f.startDate ≠ "" ∧ f.finishDate ≠ "" then 1 else 0)

/-- The all-falsy (empty) filter object. -/
def emptyFilter : FilterEmployeeDto :=
  { dni := "", email := "", completeName := "", vaccine := "",
    isVaccinated := false, startDate := "", finishDate := "" }

theorem length_andWhereDni (f : FilterEmployeeDto) (q : List QueryPred) :
    (andWhereDni f q).length = q.length + (if f.dni ≠ "" then 1 else 0) := by
  unfold andWhereDni; split <;> simp

theorem length_andWhereEmail (f : FilterEmployeeDto) (q : List QueryPred) :
    (andWhereEmail f q).length = q.length + (if f.email ≠ "" then 1 else 0) := by
  unfold andWhereEmail; split <;> simp

theorem length_andWhereCompleteName (f : FilterEmployeeDto) (q : List QueryPred) :
    (andWhereCompleteName f q).length =
      q.length + (if f.completeName ≠ "" then 1 else 0) := by
  unfold andWhereCompleteName; split <;> simp

theorem length_andWhereVaccine (f : FilterEmployeeDto) (q : List QueryPred) :
    (andWhereVaccine f q).length = q.length + (if f.vaccine ≠ "" then 1 else 0) := by
  unfold andWhereVaccine; split <;> simp

theorem length_andWhereIsVaccinated (f : FilterEmployeeDto) (q : List QueryPred) :
    (andWhereIsVaccinated f q).length = q.length + (if f.isVaccinated then 1 else 0) := by
  unfold andWhereIsVaccinated; split <;> simp

theorem length_andWhereDates (f : FilterEmployeeDto) (q : List QueryPred) :
    (andWhereDates f q).length =
      q.length + (if f.startDate ≠ "" ∧ f.finishDate ≠ "" then 1 else 0) := by
  unfold andWhereDates; split <;> simp

theorem mem_dateBetween_andWhereDni (f : FilterEmployeeDto) (q : List QueryPred)
    (s e : String) (h : QueryPred.dateBetween s e ∈ andWhereDni f q) :
    QueryPred.dateBetween s e ∈ q := by
  unfold andWhereDni at h; split at h <;> simp_all

theorem mem_dateBetween_andWhereEmail (f : FilterEmployeeDto) (q : List QueryPred)
    (s e : String) (h : QueryPred.dateBetween s e ∈ andWhereEmail f q) :
    QueryPred.dateBetween s e ∈ q := by
  unfold andWhereEmail at h; split at h <;> simp_all

theorem mem_dateBetween_andWhereCompleteName (f : FilterEmployeeDto) (q : List QueryPred)
    (s e : String) (h : QueryPred.dateBetween s e ∈ andWhereCompleteName f q) :
    QueryPred.dateBetween s e ∈ q := by
  unfold andWhereCompleteName at h; split at h <;> simp_all

theorem mem_dateBetween_andWhereVaccine (f : FilterEmployeeDto) (q : List QueryPred)
    (s e : String) (h : QueryPred.dateBetween s e ∈ andWhereVaccine f q) :
    QueryPred.dateBetween s e ∈ q := by
  unfold andWhereVaccine at h; split at h <;> simp_all

theorem mem_dateBetween_andWhereIsVaccinated (f : FilterEmployeeDto) (q : List QueryPred)
    (s e : String) (h : QueryPred.dateBetween s e ∈ andWhereIsVaccinated f q) :
    QueryPred.dateBetween s e ∈ q := by
  unfold andWhereIsVaccinated at h; split at h <;> simp_all

/-- C1: `filterEmployees` appends exactly one predicate per truthy field
among dni, email, completeName, vaccine, isVaccinated; an empty filter
object appends no predicate; and a `dateBetween` predicate appears in the
result only when both `startDate` and `finishDate` are truthy (a lone
start or finish date adds no date predicate). -/
theorem filterEmployees_predicate_counts (q : List QueryPred) (f : FilterEmployeeDto) :
    (filterEmployees q f).length = q.length + truthyFilterCount f
    ∧ filterEmployees q emptyFilter = q
    ∧ (¬ (f.startDate ≠ "" ∧ f.finishDate ≠ "") →
        ∀ s e, QueryPred.dateBetween s e ∈ filterEmployees q f →
          QueryPred.dateBetween s e ∈ q) := by
  refine ⟨?_, ?_, ?_⟩
  · simp only [filterEmployees, truthyFilterCount, length_andWhereDates,
      length_andWhereIsVaccinated, length_andWhereVaccine,
      length_andWhereCompleteName, length_andWhereEmail, length_andWhereDni]
    omega
  · simp [filterEmployees, emptyFilter, andWhereDates, andWhereIsVaccinated,
      andWhereVaccine, andWhereCompleteName, andWhereEmail, andWhereDni]
  · intro hdate s e hmem
    unfold filterEmployees andWhereDates at hmem
    rw [if_neg hdate] at hmem
    exact mem_dateBetween_andWhereDni _ _ _ _
      (mem_dateBetween_andWhereEmail _ _ _ _
        (mem_dateBetween_andWhereCompleteName _ _ _ _
          (mem_dateBetween_andWhereVaccine _ _ _ _
            (mem_dateBetween_andWhereIsVaccinated _ _ _ _ hmem))))

/-- Row of the `person` table (`PersonEntity`). -/
structure PersonRow where
  id : Nat
  dni : Nat
  firstName : String
  lastName : String
  status : Status
deriving DecidableEq, Repr

/-- Row of the `employee` table (`EmployeeEntity`); `personId` is the
foreign key of the owned Person. -/
structure EmployeeRow where
  id : Nat
  email : String
  birthDate : String
  homeAddress : String
  mobilePhone : String
  vaccinationStatus : Bool
  status : Status
  personId : Nat
deriving DecidableEq, Repr

/-- Row of the `user` table (`UserEntity`). -/
structure UserRow where
  id : Nat
  username : String
  password : String
  status : Status
  employeeId : Nat
deriving DecidableEq, Repr

/-- Row of the `role` table (`RoleEntity`). -/
structure RoleRow where
  id : Nat
  name : String
  status : Status
deriving DecidableEq, Repr

/-- Row of the `user_role` join table (`UserRoleEntity`); `roleId` is
`none` when the row was saved with an unresolved role relation. -/
structure UserRoleRow where
  id : Nat
  userId : Nat
  roleId : Option Nat
  status : Status
deriving DecidableEq, Repr

/-- Row of the `employee_vaccination` join table
(`EmployeeVaccinationEntity`). -/
structure EmployeeVaccinationRow where
  id : Nat
  employeeId : Nat
  vaccineId : Nat
  doseNumber : Nat
  vaccinationDate : String
  status : Status
deriving DecidableEq, Repr

/-- Row of the `vaccine` table (`VaccineEntity`). -/
structure VaccineRow where
  id : Nat
  vaccineType : String
  status : Status
deriving DecidableEq, Repr

/-- The relational store behind the repositories and collaborator
services. -/
structure Store where
  persons : List PersonRow
  employees : List EmployeeRow
  users : List UserRow
  roles : List RoleRow
  userRoles : List UserRoleRow
  employeeVaccinations : List EmployeeVaccinationRow
  vaccines : List VaccineRow
deriving DecidableEq, Repr

/-- A `userRoles` element of the joined employee aggregate: the user-role
row with its left-joined (Active-scoped) role. -/
structure UserRoleAgg where
  row : UserRoleRow
  role : Option RoleRow
deriving DecidableEq, Repr

/-- The left-joined user of the employee aggregate, with its Active
user-role rows (an empty list when none match, as TypeORM materialises). -/
structure UserAgg where
  row : UserRow
  userRoles : List UserRoleAgg
deriving DecidableEq, Repr

/-- An `employeeVaccinations` element of the aggregate: the join row with
its left-joined (Active-scoped) vaccine. -/
structure EmployeeVaccinationAgg where
  row : EmployeeVaccinationRow
  vaccine : Option VaccineRow
deriving DecidableEq, Repr

/-- The joined employee aggregate produced by the query of
`getEmployees` / `getEmployee`: every relation is left-joined with an
additional `status = Active` join condition. -/
structure EmployeeAgg where
  row : EmployeeRow
  person : Option PersonRow
  user : Option UserAgg
  employeeVaccinations : List EmployeeVaccinationAgg
deriving DecidableEq, Repr

/-- Left join of the employee to its Person, scoped to Active. -/
def joinPerson (st : Store) (e : EmployeeRow) : Option PersonRow :=
  st.persons.find? (fun p => p.id == e.personId && p.status == Status.Active)

/-- Left join of the employee to its User, scoped to Active. -/
def joinUser (st : Store) (e : EmployeeRow) : Option UserRow :=
  st.users.find? (fun u => u.employeeId == e.id && u.status == Status.Active)

/-- Left join of a user to its Active user-role rows. -/
def joinUserRoles (st : Store) (u : UserRow) : List UserRoleRow :=
  st.userRoles.filter (fun ur => ur.userId == u.id && ur.status == Status.Active)

/-- Left join of a user-role row to its Active role. -/
def joinRole (st : Store) (ur : UserRoleRow) : Option RoleRow :=
  match ur.roleId with
  | none => none
  | some rid => st.roles.find? (fun r => r.id == rid && r.status == Status.Active)

/-- Left join of the employee to its Active employee-vaccination rows. -/
def joinEmployeeVaccinations (st : Store) (e : EmployeeRow) :
    List EmployeeVaccinationRow :=
  st.employeeVaccinations.filter
    (fun ev => ev.employeeId == e.id && ev.status == Status.Active)

/-- Left join of an employee-vaccination row to its Active vaccine. -/
def joinVaccine (st : Store) (ev : EmployeeVaccinationRow) : Option VaccineRow :=
  st.vaccines.find? (fun v => v.id == ev.vaccineId && v.status == Status.Active)

/-- Materialisation of the full joined aggregate for one employee row, as
built by the `leftJoinAndSelect` chain shared by `getEmployees` and
`getEmployee`. -/
def buildAgg (st : Store) (e : EmployeeRow) : EmployeeAgg :=
  { row := e
    person := joinPerson st e
    user := (joinUser st e).map (fun u =>
      { row := u
        userRoles := (joinUserRoles st u).map (fun ur =>
          { row := ur, role := joinRole st ur }) })
    employeeVaccinations := (joinEmployeeVaccinations st e).map (fun ev =>
      { row := ev, vaccine := joinVaccine st ev }) }

/-- Row-level match of the `getEmployee` query: the base
`employee.status = Active` scope plus each narrowing `andWhere` that is
guarded by a truthy argument. The dni narrowing compares the joined
(Active) person dni; with no joined person the SQL comparison with NULL
is false. -/
def getEmployeeMatches (st : Store) (dni : Option Nat) (email : Option String)
    (employeeId : Option Nat) (e : EmployeeRow) : Bool :=
  e.status == Status.Active
  && (if truthyNat dni then
        match joinPerson st e with
        | some p => p.dni == dni.getD 0
        | none => false
      else true)
  && (if truthyStr email then e.email == email.getD "" else true)
  && (if truthyNat employeeId then e.id == employeeId.getD 0 else true)

/-- Embedding of `EmployeeService.getEmployee`: the joined query with the
optional exact-match narrowings, returning the first match (`getOne`). -/
def getEmployee (st : Store) (dni : Option Nat) (email : Option String)
    (employeeId : Option Nat) : Option EmployeeAgg :=
  (st.employees.find? (getEmployeeMatches st dni email employeeId)).map (buildAgg st)

/-- One element of the projected `vaccines` list; the vaccine-sourced
fields use optional chaining in the source, hence `Option`. -/
structure VaccineItem where
  id : Option Nat
  name : Option String
  doseNumber : Nat
  vaccinationDate : String
  employeeVaccinationId : Nat
deriving DecidableEq, Repr

/-- One element of the projected `roles` list. -/
structure RoleItem where
  id : Option Nat
  name : Option String
deriving DecidableEq, Repr

/-- The flat `Employee` response shape of
`models/list-employees.interface`. -/
structure Employee where
  id : Nat
  dni : Nat
  firstName : String
  lastName : String
  birthDate : String
  homeAddress : String
  mobilePhone : String
  status : String
  username : Option String
  password : Option String
  vaccinationStatus : Bool
  vaccines : Option (List VaccineItem)
  roles : Option (List RoleItem)
deriving DecidableEq, Repr

/-- Projection of one aggregate, the body of the arrow function inside
`mapEmployees`. `employee.person.dni` is read without optional chaining,
so a missing person makes the call throw: that case is `none`. The
`vaccines` and `roles` fields are `none` (null) unless the corresponding
list is non-empty. -/
def mapEmployee (employee : EmployeeAgg) : Option Employee :=
  match employee.person with
  | none => none
  | some p =>
    some
      { id := employee.row.id
        dni := p.dni
        firstName := p.firstName
        lastName := p.lastName
        birthDate := employee.row.birthDate
        homeAddress := employee.row.homeAddress
        mobilePhone := employee.row.mobilePhone
        status := if employee.row.status = Status.Active then "Active" else "Inactive"
        username := employee.user.map (fun u => u.row.username)
        password := employee.user.map (fun u => u.row.password)
        vaccinationStatus := employee.row.vaccinationStatus
        vaccines :=
          if employee.employeeVaccinations.length > 0 then
            some (employee.employeeVaccinations.map (fun ev =>
              { id := ev.vaccine.map (fun v => v.id)
                name := ev.vaccine.map (fun v => v.vaccineType)
                doseNumber := ev.row.doseNumber
                vaccinationDate := ev.row.vaccinationDate
                employeeVaccinationId := ev.row.id }))
          else none
        roles :=
          match employee.user with
          | some u =>
            if u.userRoles.length > 0 then
              some (u.userRoles.map (fun ur =>
                { id := ur.role.map (fun r => r.id)
                  name := ur.role.map (fun r => r.name) }))
            else none
          | none => none }

/-- Embedding of `EmployeeService.mapEmployees`: maps the projection over
the list; a projection failure (missing person) aborts the whole call, as
the thrown TypeError would. -/
def mapEmployees : List EmployeeAgg → Option (List Employee)
  | [] => some []
  | e :: es =>
    match mapEmployee e, mapEmployees es with
    | some r, some rs => some (r :: rs)
    | _, _ => none

/-- The projection body of `EmployeeService.myInformation`, textually the
same record construction as the `mapEmployees` arrow function. -/
def myInformationProj (employee : EmployeeAgg) : Option Employee :=
  match employee.person with
  | none => none
  | some p =>
    some
      { id := employee.row.id
        dni := p.dni
        firstName := p.firstName
        lastName := p.lastName
        birthDate := employee.row.birthDate
        homeAddress := employee.row.homeAddress
        mobilePhone := employee.row.mobilePhone
        status := if employee.row.status = Status.Active then "Active" else "Inactive"
        username := employee.user.map (fun u => u.row.username)
        password := employee.user.map (fun u => u.row.password)
        vaccinationStatus := employee.row.vaccinationStatus
        vaccines :=
          if employee.employeeVaccinations.length > 0 then
            some (employee.employeeVaccinations.map (fun ev =>
              { id := ev.vaccine.map (fun v => v.id)
                name := ev.vaccine.map (fun v => v.vaccineType)
                doseNumber := ev.row.doseNumber
                vaccinationDate := ev.row.vaccinationDate
                employeeVaccinationId := ev.row.id }))
          else none
        roles :=
          match employee.user with
          | some u =>
            if u.userRoles.length > 0 then
              some (u.userRoles.map (fun ur =>
                { id := ur.role.map (fun r => r.id)
                  name := ur.role.map (fun r => r.name) }))
            else none
          | none => none }

/-- Embedding of `EmployeeService.myInformation`: looks the employee up by
dni and projects it; a missing employee makes the source throw on
`employee.id`, embedded as `none`. -/
def myInformation (st : Store) (dni : Nat) : Option Employee :=
  (getEmployee st (some dni) none none).bind myInformationProj

/-- C2: under both projections (the `mapEmployees` arrow function and the
`myInformation` body), an aggregate with zero active employee-vaccination
rows projects to `vaccines = null` — never the empty list — and a nested
user with zero active user-role rows projects to `roles = null`; an empty
`vaccines`/`roles` list is never produced for any aggregate. -/
theorem mapEmployees_empty_relations_project_to_null (agg : EmployeeAgg) (e : Employee)
    (h : mapEmployees [agg] = some [e] ∨ myInformationProj agg = some e) :
    (agg.employeeVaccinations = [] → e.vaccines = none)
    ∧ (∀ u, agg.user = some u → u.userRoles = [] → e.roles = none)
    ∧ (agg.user = none → e.roles = none)
    ∧ e.vaccines ≠ some [] ∧ e.roles ≠ some [] := by
  have hproj : mapEmployee agg = some e ∨ myInformationProj agg = some e := by
    rcases h with h | h
    · left
      simp only [mapEmployees] at h
      cases hm : mapEmployee agg with
      | none => rw [hm] at h; simp at h
      | some r =>
        rw [hm] at h
        simp only [mapEmployees] at h
        cases h
        rfl
    · right; exact h
  rcases hproj with h | h <;>
  · cases hp : agg.person with
    | none => simp [mapEmployee, myInformationProj, hp] at h
    | some p =>
      simp only [mapEmployee, myInformationProj, hp] at h
      cases h
      refine ⟨?_, ?_, ?_, ?_, ?_⟩
      · intro hev; simp [hev]
      · intro u hu hur; simp [hu, hur]
      · intro hu; simp [hu]
      · cases hev : agg.employeeVaccinations with
        | nil => simp
        | cons a l => simp [hev]
      · cases hu : agg.user with
        | none => simp
        | some u =>
          cases hur : u.userRoles with
          | nil => simp [hu, hur]
          | cons a l => simp [hu, hur]

/-- Witness for C2 at a concrete aggregate with no vaccination rows and a
user with no role rows. -/
theorem mapEmployees_empty_relations_project_to_null_witness :
    ((mapEmployees
        [{ row := { id := 1, email := "a@x.com", birthDate := "1990-01-01",
                    homeAddress := "h", mobilePhone := "m",
                    vaccinationStatus := false, status := Status.Active,
                    personId := 1 }
           person := some { id := 1, dni := 12345678, firstName := "Ana",
                            lastName := "Diaz", status := Status.Active }
           user := some { row := { id := 1, username := "a@x.com",
                                   password := "12345678",
                                   status := Status.Active, employeeId := 1 }
                          userRoles := [] }
           employeeVaccinations := [] }]).map (fun l => l.map (fun e => (e.vaccines, e.roles))))
      = some [(none, none)] := by
  have h := mapEmployees_empty_relations_project_to_null
    { row := { id := 1, email := "a@x.com", birthDate := "1990-01-01",
               homeAddress := "h", mobilePhone := "m",
               vaccinationStatus := false, status := Status.Active, personId := 1 }
      person := some { id := 1, dni := 12345678, firstName := "Ana",
                       lastName := "Diaz", status := Status.Active }
      user := some { row := { id := 1, username := "a@x.com", password := "12345678",
                              status := Status.Active, employeeId := 1 }
                     userRoles := [] }
      employeeVaccinations := [] }
    { id := 1, dni := 12345678, firstName := "Ana", lastName := "Diaz",
      birthDate := "1990-01-01", homeAddress := "h", mobilePhone := "m",
      status := "Active", username := some "a@x.com", password := some "12345678",
      vaccinationStatus := false, vaccines := none, roles := none }
    (Or.inl (by decide))
  obtain ⟨h1, h2, -, -, -⟩ := h
  have hv := h1 rfl
  have hr := h2 _ rfl rfl
  decide

/-- The `CreateEmployeeDto` of the create flow. -/
structure CreateEmployeeDto where
  dni : Nat
  firstName : String
  lastName : String
  email : String
  role : String
  birthDate : String
  homeAddress : String
  mobilePhone : String
  vaccinationStatus : Bool
deriving DecidableEq, Repr

/-- The error kinds thrown by the employee service
(`EmployeeException` codes), plus `jsTypeError` for a TypeScript
`TypeError` on reading a field of `undefined`. -/
inductive EmpError where
  | dniExist : EmpError
  | emailExist : EmpError
  | invalidDni : EmpError
  | employeeNotFound : EmpError
  | jsTypeError : EmpError
deriving DecidableEq, Repr

/-- Modelled from the spec: `PersonService.getPerson(dni)`, a black-box
CRUD provider (its source is not under the provided files) that looks an
existing Person up by dni. -/
def getPerson (st : Store) (dni : Nat) : Option PersonRow :=
  st.persons.find? (fun p => p.dni == dni)

/-- Modelled from the spec: `RoleService.getRole(name)`, a black-box CRUD
provider that resolves a Role by name. -/
def getRole (st : Store) (name : String) : Option RoleRow :=
  st.roles.find? (fun r => r.name == name)

/-- The freshly saved `UserRoleEntity` object as it exists in memory at
the end of `createEmploye`: the join row together with its `user` and
`role` relations (the latter `none` if the role lookup resolved nothing). -/
structure UserRoleSaved where
  id : Nat
  user : Option UserRow
  role : Option RoleRow
  status : Status
deriving DecidableEq, Repr

/-- The `CreateEmployee` response shape of
`models/create-employee.interface`. -/
structure CreateEmployee where
  id : Nat
  dni : Nat
  firstName : String
  lastName : String
  birthDate : String
  homeAddress : String
  mobilePhone : String
  status : String
  username : Option String
  password : Option String
  role : Option String
deriving DecidableEq, Repr

/-- Embedding of `EmployeeService.mapCreateEmployee`; as in
`mapEmployees`, `employee.person.dni` is read without optional chaining,
so a missing person relation is the thrown-TypeError case `none`. -/
def mapCreateEmployee (employee : EmployeeAgg) (userrole : UserRoleSaved) :
    Option CreateEmployee :=
  match employee.person with
  | none => none
  | some p =>
    some
      { id := employee.row.id
        dni := p.dni
        firstName := p.firstName
        lastName := p.lastName
        birthDate := employee.row.birthDate
        homeAddress := employee.row.homeAddress
        mobilePhone := employee.row.mobilePhone
        status := if employee.row.status = Status.Active then "Active" else "Inactive"
        username := userrole.user.map (fun u => u.username)
        password := userrole.user.map (fun u => u.password)
        role := userrole.role.map (fun r => r.name) }

/-- Embedding of `EmployeeService.createEmploye`. The reads (person by
dni, employee by email, dni format validation, role by name) happen before
the three guarded throws; the four creates run only after every check
passes, so an error leaves the store untouched. Saved rows get fresh ids
from the table sizes (the id assignment of the store is opaque; only freshness
matters). Statuses of new rows default to Active per the entity defaults
described in the spec. -/
def createEmploye (validID : String → Bool) (st : Store) (dto : CreateEmployeeDto) :
    Except EmpError CreateEmployee × Store :=
  let existPerson := getPerson st dto.dni
  let existEmailEmploye := getEmployee st none (some dto.email) none
  let isValidDni := validID (toString dto.dni)
  let role := getRole st dto.role
  if existPerson.isSome then (Except.error EmpError.dniExist, st)
  else if existEmailEmploye.isSome then (Except.error EmpError.emailExist, st)
  else if !isValidDni then (Except.error EmpError.invalidDni, st)
  else
    let savedPerson : PersonRow :=
      { id := st.persons.length + 1, dni := dto.dni, firstName := dto.firstName,
        lastName := dto.lastName, status := Status.Active }
    let savedEmployee : EmployeeRow :=
      { id := st.employees.length + 1, email := dto.email, birthDate := dto.birthDate,
        homeAddress := dto.homeAddress, mobilePhone := dto.mobilePhone,
        vaccinationStatus := dto.vaccinationStatus, status := Status.Active,
        personId := savedPerson.id }
    let savedUser : UserRow :=
      { id := st.users.length + 1, username := dto.email,
        password := toString dto.dni, status := Status.Active,
        employeeId := savedEmployee.id }
    let savedUserRole : UserRoleSaved :=
      { id := st.userRoles.length + 1, user := some savedUser, role := role,
        status := Status.Active }
    let st4 : Store :=
      { st with
        persons := st.persons ++ [savedPerson]
        employees := st.employees ++ [savedEmployee]
        users := st.users ++ [savedUser]
        userRoles := st.userRoles ++
          [{ id := savedUserRole.id, userId := savedUser.id,
             roleId := role.map (fun r => r.id), status := Status.Active }] }
    match mapCreateEmployee
        { row := savedEmployee, person := some savedPerson, user := none,
          employeeVaccinations := [] } savedUserRole with
    | some r => (Except.ok r, st4)
    | none => (Except.error EmpError.jsTypeError, st4)

theorem getEmployee_email_isSome (st : Store) (email : String) (e0 : EmployeeRow)
    (hmem : e0 ∈ st.employees) (hst : e0.status = Status.Active)
    (hem : e0.email = email) :
    (getEmployee st none (some email) none).isSome = true := by
  have hfind : (st.employees.find? (getEmployeeMatches st none (some email) none)).isSome
      = true := by
    rw [List.find?_isSome]
    refine ⟨e0, hmem, ?_⟩
    simp [getEmployeeMatches, truthyNat, truthyStr, hst, hem]
  rw [getEmployee]
  cases hf : st.employees.find? (getEmployeeMatches st none (some email) none) with
  | none => rw [hf] at hfind; simp at hfind
  | some x => rfl

/-- C3: `createEmploye` rejects with `dni-exist` whenever a Person with
the dto dni exists; with `email-exist` when no such Person exists but an
active Employee with the dto email does; with `invalid-dni` when both
lookups are empty and the format validator rejects the dni — in that
priority order — and every rejection leaves the store unchanged (no
Person, Employee, User or UserRole row is created). -/
theorem createEmploye_rejections (validID : String → Bool) (st : Store)
    (dto : CreateEmployeeDto) :
    ((∃ p, p ∈ st.persons ∧ p.dni = dto.dni) →
        (createEmploye validID st dto).1 = Except.error EmpError.dniExist)
    ∧ (getPerson st dto.dni = none →
        (∃ e0, e0 ∈ st.employees ∧ e0.status = Status.Active ∧ e0.email = dto.email) →
        (createEmploye validID st dto).1 = Except.error EmpError.emailExist)
    ∧ (getPerson st dto.dni = none →
        getEmployee st none (some dto.email) none = none →
        validID (toString dto.dni) = false →
        (createEmploye validID st dto).1 = Except.error EmpError.invalidDni)
    ∧ (∀ err, (createEmploye validID st dto).1 = Except.error err →
        (createEmploye validID st dto).2 = st) := by
  refine ⟨?_, ?_, ?_, ?_⟩
  · rintro ⟨p, hmem, hdni⟩
    have hsome : (getPerson st dto.dni).isSome = true := by
      rw [getPerson, List.find?_isSome]
      exact ⟨p, hmem, by simp [hdni]⟩
    simp [createEmploye, hsome]
  · rintro hp ⟨e0, hmem, hst0, hem⟩
    have hsome := getEmployee_email_isSome st dto.email e0 hmem hst0 hem
    simp [createEmploye, hp, hsome]
  · intro hp he hv
    simp [createEmploye, hp, he, hv]
  · intro err herr
    by_cases h1 : (getPerson st dto.dni).isSome
    · simp [createEmploye, h1]
    · by_cases h2 : (getEmployee st none (some dto.email) none).isSome
      · simp [createEmploye, h1, h2]
      · by_cases h3 : validID (toString dto.dni)
        · exfalso
          simp only [createEmploye, h1, h2, h3] at herr
          simp [mapCreateEmployee] at herr
        · simp [createEmploye, h1, h2, h3]

/-- Witness for C3: on a one-person store, creating with the same dni is
rejected with `dni-exist`. -/
theorem createEmploye_rejections_witness :
    (createEmploye (fun _ => true)
        { persons := [{ id := 1, dni := 12345678, firstName := "Ana",
                        lastName := "Diaz", status := Status.Active }],
          employees := [], users := [], roles := [], userRoles := [],
          employeeVaccinations := [], vaccines := [] }
        { dni := 12345678, firstName := "Ana", lastName := "Diaz",
          email := "ana@x.com", role := "NURSE", birthDate := "1990-01-01",
          homeAddress := "h", mobilePhone := "m",
          vaccinationStatus := false }).1 = Except.error EmpError.dniExist :=
  (createEmploye_rejections (fun _ => true) _ _).1
    ⟨{ id := 1, dni := 12345678, firstName := "Ana", lastName := "Diaz",
       status := Status.Active }, by decide, rfl⟩

/-- C4: on a successful `createEmploye`, the created User row has
username = dto email and password = the dto dni rendered as a plaintext
string, and the returned record carries the employee scalar fields
together with that username, that password and the name of the role
resolved from the dto role argument. -/
theorem createEmploye_success_shape (validID : String → Bool) (st : Store)
    (dto : CreateEmployeeDto)
    (hp : getPerson st dto.dni = none)
    (he : getEmployee st none (some dto.email) none = none)
    (hv : validID (toString dto.dni) = true) :
    ∃ r, (createEmploye validID st dto).1 = Except.ok r
      ∧ r.username = some dto.email
      ∧ r.password = some (toString dto.dni)
      ∧ r.role = (getRole st dto.role).map (fun rr => rr.name)
      ∧ r.dni = dto.dni ∧ r.firstName = dto.firstName ∧ r.lastName = dto.lastName
      ∧ r.birthDate = dto.birthDate ∧ r.homeAddress = dto.homeAddress
      ∧ r.mobilePhone = dto.mobilePhone ∧ r.status = "Active"
      ∧ (∃ u, (createEmploye validID st dto).2.users = st.users ++ [u]
          ∧ u.username = dto.email ∧ u.password = toString dto.dni) := by
  refine ⟨{ id := st.employees.length + 1, dni := dto.dni, firstName := dto.firstName,
            lastName := dto.lastName, birthDate := dto.birthDate,
            homeAddress := dto.homeAddress, mobilePhone := dto.mobilePhone,
            status := "Active", username := some dto.email,
            password := some (toString dto.dni),
            role := (getRole st dto.role).map (fun rr => rr.name) },
          ?_, rfl, rfl, rfl, rfl, rfl, rfl, rfl, rfl, rfl, rfl, ?_⟩
  · simp [createEmploye, hp, he, hv, mapCreateEmployee]
  · refine ⟨{ id := st.users.length + 1, username := dto.email,
              password := toString dto.dni, status := Status.Active,
              employeeId := st.employees.length + 1 }, ?_, rfl, rfl⟩
    simp [createEmploye, hp, he, hv, mapCreateEmployee]

/-- Witness for C4: creating Ana on an empty store returns her email as
username and her dni string as plaintext password. -/
theorem createEmploye_success_shape_witness :
    ∃ r, (createEmploye (fun _ => true)
        { persons := [], employees := [], users := [], roles := [],
          userRoles := [], employeeVaccinations := [], vaccines := [] }
        { dni := 12345678, firstName := "Ana", lastName := "Diaz",
          email := "ana@x.com", role := "NURSE", birthDate := "1990-01-01",
          homeAddress := "h", mobilePhone := "m",
          vaccinationStatus := false }).1 = Except.ok r
      ∧ r.username = some "ana@x.com"
      ∧ r.password = some "12345678" := by
  obtain ⟨r, h1, h2, h3, -⟩ :=
    createEmploye_success_shape (fun _ => true)
      { persons := [], employees := [], users := [], roles := [],
        userRoles := [], employeeVaccinations := [], vaccines := [] }
      { dni := 12345678, firstName := "Ana", lastName := "Diaz",
        email := "ana@x.com", role := "NURSE", birthDate := "1990-01-01",
        homeAddress := "h", mobilePhone := "m", vaccinationStatus := false }
      rfl rfl rfl
  exact ⟨r, h1, h2, h3⟩

/-- The `UpdateEmployeeDto` of the update flow; `password` and `username`
are genuinely optional in the observed behaviour, the rest are carried as
plain values. -/
structure UpdateEmployeeDto where
  dni : Nat
  firstName : String
  lastName : String
  email : String
  birthDate : String
  homeAddress : String
  mobilePhone : String
  vaccinationStatus : Bool
  password : Option String
  username : Option String
deriving DecidableEq, Repr

/-- A partial employee entity handed to `repository.update`: only the
`some` fields are written. -/
structure EmployeePatch where
  email : Option String
  birthDate : Option String
  homeAddress : Option String
  mobilePhone : Option String
  vaccinationStatus : Option Bool
  status : Option Status
deriving DecidableEq, Repr

/-- TypeORM partial-update semantics for one employee row. -/
def applyEmployeePatch (e : EmployeeRow) (pa : EmployeePatch) : EmployeeRow :=
  { e with
    email := pa.email.getD e.email
    birthDate := pa.birthDate.getD e.birthDate
    homeAddress := pa.homeAddress.getD e.homeAddress
    mobilePhone := pa.mobilePhone.getD e.mobilePhone
    vaccinationStatus := pa.vaccinationStatus.getD e.vaccinationStatus
    status := pa.status.getD e.status }

/-- Embedding of `this._employeeRepository.update(id, partial)`. -/
def employeeRepoUpdate (st : Store) (id : Nat) (pa : EmployeePatch) : Store :=
  { st with
    employees := st.employees.map (fun e =>
      if e.id == id then applyEmployeePatch e pa else e) }

/-- A partial person entity: `dni` is only present when the new dni passed
format validation. -/
structure PersonPatch where
  dni : Option Nat
  firstName : Option String
  lastName : Option String
deriving DecidableEq, Repr

/-- TypeORM partial-update semantics for one person row. -/
def applyPersonPatch (p : PersonRow) (pa : PersonPatch) : PersonRow :=
  { p with
    dni := pa.dni.getD p.dni
    firstName := pa.firstName.getD p.firstName
    lastName := pa.lastName.getD p.lastName }

/-- Modelled from the spec: `PersonService.updatePerson(id, partial)`, a
black-box CRUD provider; the id may be `undefined` when the employee has
no joined person, in which case no row matches. -/
def updatePerson (st : Store) (pid : Option Nat) (pa : PersonPatch) : Store :=
  { st with
    persons := st.persons.map (fun p =>
      if some p.id == pid then applyPersonPatch p pa else p) }

/-- A partial user entity: the password field is present only when the
dto carried a (truthy) password, the username only when email or username
was supplied. -/
structure UserPatch where
  password : Option String
  username : Option String
deriving DecidableEq, Repr

/-- TypeORM partial-update semantics for one user row. -/
def applyUserPatch (u : UserRow) (pa : UserPatch) : UserRow :=
  { u with
    password := pa.password.getD u.password
    username := pa.username.getD u.username }

/-- Modelled from the spec: `UserService.updateuser(id, partial)`, a
black-box CRUD provider. -/
def updateuser (st : Store) (uid : Option Nat) (pa : UserPatch) : Store :=
  { st with
    users := st.users.map (fun u =>
      if some u.id == uid then applyUserPatch u pa else u) }

/-- The two success shapes returned by `updateEmployee`. -/
inductive UpdateResult where
  | deleted : (message : String) → (id : Nat) → (status : String) →
      (employeeName : String) → (dni : Nat) → (email : String) → UpdateResult
  | updated : (message : String) → (employee : UpdateEmployeeDto) → UpdateResult
deriving DecidableEq, Repr

/-- Embedding of `EmployeeService.updateEmployee`. The target is located
with `getEmployee(dni)`. The DELETE branch requires a truthy dni, a found
employee, `type = DELETE` and caller role ADMINISTRATOR, and updates only
the employee status; building its return value reads
`findEmployee.person.firstName` without optional chaining, so a missing
person throws after the status write. The UPDATE branch requires a truthy
dni, a found employee and `type = UPDATE`; it writes the employee scalar
fields, then the person (dni only when the new dni passes `validateID`),
then the user — hashing `user.password`, the not-yet-assigned field of the
fresh entity (`bhash none 10`), when the dto carries a password. Every
other combination throws `employee-not-found`. -/
def updateEmployee (validID : String → Bool) (bhash : Option String → Nat → String)
    (st : Store) (dni : Nat) (role : Option String) (typ : Option String)
    (updateDto : Option UpdateEmployeeDto) : Except EmpError UpdateResult × Store :=
  match getEmployee st (some dni) none none with
  | some findEmployee =>
    if dni ≠ 0 ∧ typ = some TypeDELETE ∧ role = some UserADMINISTRATOR then
      let st1 := employeeRepoUpdate st findEmployee.row.id
        { email := none, birthDate := none, homeAddress := none,
          mobilePhone := none, vaccinationStatus := none,
          status := some Status.Inactive }
      match findEmployee.person with
      | some p =>
        (Except.ok (UpdateResult.deleted "The employee has been deleted successfully"
          findEmployee.row.id "Inactive" (p.firstName ++ " " ++ p.lastName)
          p.dni findEmployee.row.email), st1)
      | none => (Except.error EmpError.jsTypeError, st1)
    else if dni ≠ 0 ∧ typ = some TypeUPDATE then
      match updateDto with
      | none => (Except.error EmpError.jsTypeError, st)
      | some u =>
        let st1 := employeeRepoUpdate st findEmployee.row.id
          { email := some u.email, birthDate := some u.birthDate,
            homeAddress := some u.homeAddress, mobilePhone := some u.mobilePhone,
            vaccinationStatus := some u.vaccinationStatus, status := none }
        let isValidDni := validID (toString u.dni)
        let st2 := updatePerson st1 (findEmployee.person.map (fun p => p.id))
          { dni := if isValidDni then some u.dni else none,
            firstName := some u.firstName, lastName := some u.lastName }
        let st3 := updateuser st2 (findEmployee.user.map (fun w => w.row.id))
          { password := if truthyStr u.password then some (bhash none 10) else none,
            username := if u.email ≠ "" then some u.email else u.username }
        (Except.ok (UpdateResult.updated "The employee has been updated successfully" u),
          st3)
    else (Except.error EmpError.employeeNotFound, st)
  | none => (Except.error EmpError.employeeNotFound, st)

theorem applyEmployeePatch_statusOnly (e : EmployeeRow) :
    applyEmployeePatch e
      { email := none, birthDate := none, homeAddress := none,
        mobilePhone := none, vaccinationStatus := none,
        status := some Status.Inactive } = { e with status := Status.Inactive } := rfl

/-- C5: for an existing active employee located by dni, DELETE by an
ADMINISTRATOR flips only the status of that employee row to Inactive — every
other employee field, every other employee row, and the person, user,
user-role, role, vaccination and vaccine tables are untouched — and the
returned confirmation carries the prior id, full name, dni and email. -/
theorem updateEmployee_delete_soft_deletes_only_employee
    (validID : String → Bool) (bhash : Option String → Nat → String)
    (st : Store) (dni : Nat) (dto : Option UpdateEmployeeDto)
    (agg : EmployeeAgg) (p : PersonRow)
    (hdni : dni ≠ 0)
    (hfind : getEmployee st (some dni) none none = some agg)
    (hp : agg.person = some p) :
    (updateEmployee validID bhash st dni (some UserADMINISTRATOR)
        (some TypeDELETE) dto).1
      = Except.ok (UpdateResult.deleted "The employee has been deleted successfully"
          agg.row.id "Inactive" (p.firstName ++ " " ++ p.lastName) p.dni agg.row.email)
    ∧ (updateEmployee validID bhash st dni (some UserADMINISTRATOR)
        (some TypeDELETE) dto).2.persons = st.persons
    ∧ (updateEmployee validID bhash st dni (some UserADMINISTRATOR)
        (some TypeDELETE) dto).2.users = st.users
    ∧ (updateEmployee validID bhash st dni (some UserADMINISTRATOR)
        (some TypeDELETE) dto).2.userRoles = st.userRoles
    ∧ (updateEmployee validID bhash st dni (some UserADMINISTRATOR)
        (some TypeDELETE) dto).2.roles = st.roles
    ∧ (updateEmployee validID bhash st dni (some UserADMINISTRATOR)
        (some TypeDELETE) dto).2.employeeVaccinations = st.employeeVaccinations
    ∧ (updateEmployee validID bhash st dni (some UserADMINISTRATOR)
        (some TypeDELETE) dto).2.vaccines = st.vaccines
    ∧ (updateEmployee validID bhash st dni (some UserADMINISTRATOR)
        (some TypeDELETE) dto).2.employees
      = st.employees.map (fun e =>
          if e.id == agg.row.id then { e with status := Status.Inactive } else e) := by
  simp [updateEmployee, hfind, hp, hdni, employeeRepoUpdate,
    applyEmployeePatch_statusOnly]

/-- Concrete one-employee store used by the delete witness. -/
def W5store : Store :=
  { persons := [{ id := 1, dni := 5, firstName := "Ana", lastName := "Diaz",
                  status := Status.Active }],
    employees := [{ id := 1, email := "ana@x.com", birthDate := "b",
                    homeAddress := "h", mobilePhone := "m",
                    vaccinationStatus := false, status := Status.Active,
                    personId := 1 }],
    users := [], roles := [], userRoles := [], employeeVaccinations := [],
    vaccines := [] }

/-- Witness for C5: the admin DELETE on the concrete store returns the
confirmation record built from the prior fields. -/
theorem updateEmployee_delete_soft_deletes_only_employee_witness :
    (updateEmployee (fun _ => true) (fun _ _ => "") W5store 5
        (some UserADMINISTRATOR) (some TypeDELETE) none).1
      = Except.ok (UpdateResult.deleted "The employee has been deleted successfully"
          1 "Inactive" "Ana Diaz" 5 "ana@x.com") := by
  have h := (updateEmployee_delete_soft_deletes_only_employee (fun _ => true)
    (fun _ _ => "") W5store 5 none
    (buildAgg W5store { id := 1, email := "ana@x.com", birthDate := "b",
                        homeAddress := "h", mobilePhone := "m",
                        vaccinationStatus := false, status := Status.Active,
                        personId := 1 })
    { id := 1, dni := 5, firstName := "Ana", lastName := "Diaz",
      status := Status.Active }
    (by decide) rfl rfl).1
  simpa using h

/-- C6: for a found active employee, an UPDATE whose dto dni fails format
validation still succeeds (no `invalid-dni` error exists in this path);
the person patch omits dni — so the stored person keeps its old dni —
while firstName and lastName are still overwritten from the dto. -/
theorem updateEmployee_update_invalid_dni_is_dropped
    (validID : String → Bool) (bhash : Option String → Nat → String)
    (st : Store) (dni : Nat) (role : Option String) (u : UpdateEmployeeDto)
    (agg : EmployeeAgg) (p : PersonRow)
    (hdni : dni ≠ 0)
    (hfind : getEmployee st (some dni) none none = some agg)
    (hp : agg.person = some p)
    (hinvalid : validID (toString u.dni) = false) :
    (updateEmployee validID bhash st dni role (some TypeUPDATE) (some u)).1
      = Except.ok (UpdateResult.updated "The employee has been updated successfully" u)
    ∧ (updateEmployee validID bhash st dni role (some TypeUPDATE) (some u)).2.persons
      = st.persons.map (fun q =>
          if q.id == p.id then
            { q with firstName := u.firstName, lastName := u.lastName }
          else q) := by
  constructor
  · simp [updateEmployee, hfind, hdni, TypeUPDATE, TypeDELETE]
  · simp [updateEmployee, hfind, hp, hdni, hinvalid, TypeUPDATE, TypeDELETE,
      employeeRepoUpdate, updatePerson, updateuser, applyPersonPatch]

/-- Concrete store with a person, employee and user, shared by the update
witnesses below. -/
def W7store : Store :=
  { persons := [{ id := 1, dni := 5, firstName := "Ana", lastName := "Diaz",
                  status := Status.Active }],
    employees := [{ id := 1, email := "ana@x.com", birthDate := "b",
                    homeAddress := "h", mobilePhone := "m",
                    vaccinationStatus := false, status := Status.Active,
                    personId := 1 }],
    users := [{ id := 7, username := "ana@x.com", password := "old",
                status := Status.Active, employeeId := 1 }],
    roles := [], userRoles := [], employeeVaccinations := [], vaccines := [] }

/-- Concrete update dto carrying an (invalid) new dni and a password. -/
def W7dto : UpdateEmployeeDto :=
  { dni := 99, firstName := "Eva", lastName := "Lu", email := "eva@x.com",
    birthDate := "b2", homeAddress := "h2", mobilePhone := "m2",
    vaccinationStatus := true, password := some "secret", username := none }

/-- Witness for C6: with a validator rejecting everything, the UPDATE on
the concrete store still returns the success record. -/
theorem updateEmployee_update_invalid_dni_is_dropped_witness :
    (updateEmployee (fun _ => false) (fun _ _ => "") W7store 5 none
        (some TypeUPDATE) (some W7dto)).1
      = Except.ok (UpdateResult.updated "The employee has been updated successfully"
          W7dto)
    ∧ (updateEmployee (fun _ => false) (fun _ _ => "") W7store 5 none
        (some TypeUPDATE) (some W7dto)).2.persons
      = [{ id := 1, dni := 5, firstName := "Eva", lastName := "Lu",
           status := Status.Active }] := by
  have h := updateEmployee_update_invalid_dni_is_dropped (fun _ => false)
    (fun _ _ => "") W7store 5 none W7dto
    (buildAgg W7store { id := 1, email := "ana@x.com", birthDate := "b",
                        homeAddress := "h", mobilePhone := "m",
                        vaccinationStatus := false, status := Status.Active,
                        personId := 1 })
    { id := 1, dni := 5, firstName := "Ana", lastName := "Diaz",
      status := Status.Active }
    (by decide) rfl rfl rfl
  exact ⟨h.1, by rw [h.2]; rfl⟩

/-- Hash model used by the C7 counterexample: it records which value was
hashed. -/
def W7hash : Option String → Nat → String
  | none, _ => "H-undefined"
  | some s, _ => "H-" ++ s

/-- C7 counterexample: the dto carries password "secret", yet the stored
user password is the hash of the unassigned `user.password` field
(`W7hash none 10 = "H-undefined"`), not the hash of the supplied password
(`"H-secret"`), refuting the claim that the supplied password is
re-hashed and stored. -/
theorem updateEmployee_password_hash_counterexample :
    (updateEmployee (fun _ => true) W7hash W7store 5 none
        (some TypeUPDATE) (some W7dto)).2.users
      = [{ id := 7, username := "eva@x.com", password := "H-undefined",
           status := Status.Active, employeeId := 1 }]
    ∧ W7hash (some "secret") 10 = "H-secret"
    ∧ ("H-undefined" : String) ≠ "H-secret" := by decide

/-- C7 (amended): when the dto carries a truthy password, the UPDATE
stores as the new user password the hash of the not-yet-assigned
password field of the fresh user entity — `bhash none 10` — independent of
the value of the supplied password; the username is taken from the dto email,
else the dto username. -/
theorem updateEmployee_update_hashes_unassigned_password
    (validID : String → Bool) (bhash : Option String → Nat → String)
    (st : Store) (dni : Nat) (role : Option String) (u : UpdateEmployeeDto)
    (agg : EmployeeAgg) (usr : UserAgg)
    (hdni : dni ≠ 0)
    (hfind : getEmployee st (some dni) none none = some agg)
    (huser : agg.user = some usr)
    (hpw : truthyStr u.password = true) :
    (updateEmployee validID bhash st dni role (some TypeUPDATE) (some u)).2.users
      = st.users.map (fun w =>
          if w.id == usr.row.id then
            { w with
              password := bhash none 10
              username := (if u.email ≠ "" then some u.email else u.username).getD
                w.username }
          else w) := by
  simp [updateEmployee, hfind, huser, hdni, hpw, TypeUPDATE, TypeDELETE,
    employeeRepoUpdate, updatePerson, updateuser, applyUserPatch]

/-- Witness for the amended C7 on the concrete store: the stored password of user 7 becomes the hash of the unassigned field. -/
theorem updateEmployee_update_hashes_unassigned_password_witness :
    (updateEmployee (fun _ => true) W7hash W7store 5 none
        (some TypeUPDATE) (some W7dto)).2.users
      = [{ id := 7, username := "eva@x.com", password := W7hash none 10,
           status := Status.Active, employeeId := 1 }] := by
  have h := updateEmployee_update_hashes_unassigned_password (fun _ => true)
    W7hash W7store 5 none W7dto
    (buildAgg W7store { id := 1, email := "ana@x.com", birthDate := "b",
                        homeAddress := "h", mobilePhone := "m",
                        vaccinationStatus := false, status := Status.Active,
                        personId := 1 })
    { row := { id := 7, username := "ana@x.com", password := "old",
               status := Status.Active, employeeId := 1 }
      userRoles := [] }
    (by decide) rfl rfl rfl
  rw [h]; rfl

/-- C8: `updateEmployee` fails with `employee-not-found` and leaves the
store unchanged whenever the active-scoped lookup by dni finds nothing,
and likewise — even with the employee found — for every type/role
combination other than (DELETE, ADMINISTRATOR) and type = UPDATE; in
particular a DELETE by a non-ADMINISTRATOR caller fails this way and never
touches the employee status. -/
theorem updateEmployee_not_found_cases (validID : String → Bool)
    (bhash : Option String → Nat → String) (st : Store) (dni : Nat)
    (role : Option String) (typ : Option String) (dto : Option UpdateEmployeeDto) :
    (getEmployee st (some dni) none none = none →
      updateEmployee validID bhash st dni role typ dto
        = (Except.error EmpError.employeeNotFound, st))
    ∧ (¬ (typ = some TypeDELETE ∧ role = some UserADMINISTRATOR) →
        typ ≠ some TypeUPDATE →
        updateEmployee validID bhash st dni role typ dto
          = (Except.error EmpError.employeeNotFound, st))
    ∧ (typ = some TypeDELETE → role ≠ some UserADMINISTRATOR →
        updateEmployee validID bhash st dni role typ dto
          = (Except.error EmpError.employeeNotFound, st)) := by
  have hmain : ∀ _ : ¬ (typ = some TypeDELETE ∧ role = some UserADMINISTRATOR),
      typ ≠ some TypeUPDATE →
      updateEmployee validID bhash st dni role typ dto
        = (Except.error EmpError.employeeNotFound, st) := by
    intro h1 h2
    unfold updateEmployee
    cases hf : getEmployee st (some dni) none none with
    | none => rfl
    | some fe =>
      dsimp only
      rw [if_neg (fun hc : dni ≠ 0 ∧ typ = some TypeDELETE ∧ role = some UserADMINISTRATOR
            => h1 ⟨hc.2.1, hc.2.2⟩),
        if_neg (fun hc : dni ≠ 0 ∧ typ = some TypeUPDATE => h2 hc.2)]
  refine ⟨?_, hmain, ?_⟩
  · intro h
    unfold updateEmployee
    rw [h]
  · intro hT hR
    refine hmain (fun hc => hR hc.2) ?_
    rw [hT]
    simp [TypeDELETE, TypeUPDATE]

/-- Witness for C8: on the one-employee store, a DELETE requested by a
NURSE role is rejected with `employee-not-found` and the store is
untouched. -/
theorem updateEmployee_not_found_cases_witness :
    updateEmployee (fun _ => true) (fun _ _ => "") W7store 5 (some "NURSE")
        (some TypeDELETE) none
      = (Except.error EmpError.employeeNotFound, W7store) :=
  (updateEmployee_not_found_cases (fun _ => true) (fun _ _ => "") W7store 5
      (some "NURSE") (some TypeDELETE) none).2.2 rfl (by decide)

/-- Embedding of `VaccineService.getVaccines`: the query selects the rows
with status Active and orders them ascending by `vaccineType` (`ORDER BY
... ASC`, embedded as a sort by string order). -/
def getVaccines (vaccineTable : List VaccineRow) : List VaccineRow :=
  (vaccineTable.filter (fun v => v.status == Status.Active)).mergeSort
    (fun a b => a.vaccineType ≤ b.vaccineType)

/-- C9: `getVaccines` returns exactly the Active vaccines (a permutation
of the Active-filtered table), in ascending `vaccineType` order, and the
empty list — not null, which the return type cannot even express — when no
active vaccine exists. -/
theorem getVaccines_active_sorted (vs : List VaccineRow) :
    (getVaccines vs).Perm (vs.filter (fun v => v.status == Status.Active))
    ∧ List.Pairwise (fun a b => a.vaccineType ≤ b.vaccineType) (getVaccines vs)
    ∧ ((∀ v ∈ vs, v.status ≠ Status.Active) → getVaccines vs = []) := by
  refine ⟨List.mergeSort_perm _ _, ?_, ?_⟩
  · have htrans : ∀ a b c : VaccineRow,
        decide (a.vaccineType ≤ b.vaccineType) = true →
        decide (b.vaccineType ≤ c.vaccineType) = true →
        decide (a.vaccineType ≤ c.vaccineType) = true := by
      intro a b c h1 h2
      have h1 := of_decide_eq_true h1
      have h2 := of_decide_eq_true h2
      exact decide_eq_true (le_trans h1 h2)
    have htotal : ∀ a b : VaccineRow,
        (decide (a.vaccineType ≤ b.vaccineType)
          || decide (b.vaccineType ≤ a.vaccineType)) = true := by
      intro a b
      rcases le_total a.vaccineType b.vaccineType with h | h <;> simp [h]
    have h := List.sorted_mergeSort htrans htotal
      (vs.filter (fun v => v.status == Status.Active))
    exact h.imp (fun hab => of_decide_eq_true hab)
  · intro h
    have hnil : vs.filter (fun v => v.status == Status.Active) = [] := by
      rw [List.filter_eq_nil_iff]
      intro v hv
      simpa using h v hv
    rw [getVaccines, hnil, List.mergeSort_nil]

/-- Witness for C9: a table whose only rows are Inactive yields the empty
list. -/
theorem getVaccines_active_sorted_witness :
    getVaccines [{ id := 1, vaccineType := "Pfizer", status := Status.Inactive }]
      = [] :=
  (getVaccines_active_sorted
      [{ id := 1, vaccineType := "Pfizer", status := Status.Inactive }]).2.2
    (by decide)

/-- C10: when every narrowing argument of `getEmployee` is absent or
falsy (dni 0 or missing, no email, no employeeId), no narrowing predicate
is applied: the query degenerates to the base Active scope and returns the
first active employee of the store (rather than nothing) whenever one
exists. -/
theorem getEmployee_all_falsy_returns_first_active (st : Store)
    (dni : Option Nat) (email : Option String) (employeeId : Option Nat)
    (h1 : truthyNat dni = false) (h2 : truthyStr email = false)
    (h3 : truthyNat employeeId = false) :
    getEmployee st dni email employeeId
      = (st.employees.find? (fun e => e.status == Status.Active)).map (buildAgg st)
    ∧ ((∃ e0, e0 ∈ st.employees ∧ e0.status = Status.Active) →
        (getEmployee st dni email employeeId).isSome = true) := by
  have hfun : getEmployeeMatches st dni email employeeId
      = fun e => e.status == Status.Active := by
    funext e
    simp [getEmployeeMatches, h1, h2, h3]
  have hbase : getEmployee st dni email employeeId
      = (st.employees.find? (fun e => e.status == Status.Active)).map (buildAgg st) := by
    rw [getEmployee, hfun]
  refine ⟨hbase, ?_⟩
  rintro ⟨e0, hmem, hst0⟩
  have hfind : (st.employees.find? (fun e => e.status == Status.Active)).isSome
      = true := by
    rw [List.find?_isSome]
    exact ⟨e0, hmem, by simp [hst0]⟩
  rw [hbase]
  cases hf : st.employees.find? (fun e => e.status == Status.Active) with
  | none => rw [hf] at hfind; simp at hfind
  | some x => rfl

/-- Store with an inactive first employee and an active second one, for
the C10 witness. -/
def W10store : Store :=
  { persons := [], employees :=
      [{ id := 1, email := "off@x.com", birthDate := "b", homeAddress := "h",
         mobilePhone := "m", vaccinationStatus := false,
         status := Status.Inactive, personId := 1 },
       { id := 2, email := "on@x.com", birthDate := "b", homeAddress := "h",
         mobilePhone := "m", vaccinationStatus := true,
         status := Status.Active, personId := 2 }],
    users := [], roles := [], userRoles := [], employeeVaccinations := [],
    vaccines := [] }

/-- Witness for C10: with dni 0 and no other argument, the lookup returns
the first active employee (id 2) of the store. -/
theorem getEmployee_all_falsy_returns_first_active_witness :
    getEmployee W10store (some 0) none none
      = some (buildAgg W10store
          { id := 2, email := "on@x.com", birthDate := "b", homeAddress := "h",
            mobilePhone := "m", vaccinationStatus := true,
            status := Status.Active, personId := 2 })
    ∧ (getEmployee W10store (some 0) none none).isSome = true := by
  have h := getEmployee_all_falsy_returns_first_active W10store (some 0) none none
    rfl rfl rfl
  constructor
  · rw [h.1]; rfl
  · apply h.2
    refine ⟨{ id := 2, email := "on@x.com", birthDate := "b",
              homeAddress := "h", mobilePhone := "m", vaccinationStatus := true,
              status := Status.Active, personId := 2 }, ?_, rfl⟩
    decide

/-- Witness for C1: a filter carrying a dni and only a startDate appends
exactly the one dni predicate and no date predicate. -/
theorem filterEmployees_predicate_counts_witness :
    (filterEmployees []
        { dni := "12", email := "", completeName := "", vaccine := "",
          isVaccinated := false, startDate := "2021-01-01", finishDate := "" }).length
      = ([] : List QueryPred).length + truthyFilterCount
        { dni := "12", email := "", completeName := "", vaccine := "",
          isVaccinated := false, startDate := "2021-01-01", finishDate := "" }
    ∧ (∀ s e, QueryPred.dateBetween s e ∈ filterEmployees []
        { dni := "12", email := "", completeName := "", vaccine := "",
          isVaccinated := false, startDate := "2021-01-01", finishDate := "" } →
        QueryPred.dateBetween s e ∈ ([] : List QueryPred)) :=
  ⟨(filterEmployees_predicate_counts [] _).1,
   (filterEmployees_predicate_counts [] _).2.2 (by decide)⟩
